import Mathlib

/-!
Shallow embedding of `bib2txt` (`src/main.py`) and verification of its
specification claims.  The external collaborators (the bibtex parser and
the LaTeX-to-text converter `LatexNodes2Text`) are abstracted: a record is
an association list of fields, and the converter is a parameter
`norm : String → String`.  Everything else is translated line by line from
the source.
-/

namespace Bib2Txt

/-- A bibliographic record: mapping from field name to field value, as
produced by the external parser (`bib_database.entries`).  The entry type
tag is stored under the key `ENTRYTYPE`, as `bibtexparser` does. -/
abbrev Entry := List (String × String)

/-- Python `field in entry` / `entry[field]` combined: first binding wins. -/
def lookupField : Entry → String → Option String
  | [], _ => none
  | (k, v) :: rest, key => if k = key then some v else lookupField rest key

/-- Python `field in entry`. -/
def hasField (e : Entry) (k : String) : Bool := (lookupField e k).isSome

/-- Python substring test `sub in hay`. -/
def containsSub (hay sub : String) : Bool :=
  hay.data.tails.any (fun t => sub.data.isPrefixOf t)

/-- Python `str.lower()` (ASCII-faithful model). -/
def pyLower (s : String) : String := String.mk (s.data.map Char.toLower)

/-- Python `str.strip()`: drop whitespace from both ends. -/
def pyStrip (s : String) : String :=
  String.mk (((s.data.dropWhile Char.isWhitespace).reverse.dropWhile Char.isWhitespace).reverse)

/-- Python `str.capitalize()`: first char uppercased, the rest lowercased. -/
def pyCapitalize (s : String) : String :=
  match s.data with
  | [] => ""
  | c :: cs => String.mk (c.toUpper :: cs.map Char.toLower)

/-- Python slice `l[:k]`, including negative `k` (counted from the end,
clamped below at the empty list). -/
def pySliceTo (l : List String) (k : Int) : List String :=
  l.take ((if 0 ≤ k then k else (l.length : Int) + k).toNat)

/-- Python `sep.join(l)`. -/
def joinWith (sep : String) : List String → String
  | [] => ""
  | [x] => x
  | x :: y :: rest => x ++ sep ++ joinWith sep (y :: rest)

/-- Worker for `pyReplace`: left-to-right, non-overlapping replacement, with
fuel bounding the number of consumed characters. -/
def replaceGo (pat repl : List Char) : Nat → List Char → List Char
  | 0, cs => cs
  | _ + 1, [] => []
  | fuel + 1, c :: rest =>
    if pat.isPrefixOf (c :: rest) then
      repl ++ replaceGo pat repl fuel ((c :: rest).drop pat.length)
    else
      c :: replaceGo pat repl fuel rest

/-- Python `s.replace(pat, repl)` for a non-empty `pat`. -/
def pyReplace (s pat repl : String) : String :=
  String.mk (replaceGo pat.data repl.data s.data.length s.data)

/-- Worker for `pySplit`: accumulates the current chunk (reversed), with fuel
bounding the number of consumed characters. -/
def splitGo (sep : List Char) : Nat → List Char → List Char → List (List Char)
  | 0, cs, acc => [acc.reverse ++ cs]
  | fuel + 1, cs, acc =>
    match cs with
    | [] => [acc.reverse]
    | c :: rest =>
      if sep.isPrefixOf (c :: rest) then
        acc.reverse :: splitGo sep fuel ((c :: rest).drop sep.length) []
      else
        splitGo sep fuel rest (c :: acc)

/-- Python `s.split(sep)` for a non-empty `sep`. -/
def pySplit (s sep : String) : List String :=
  (splitGo sep.data s.data.length s.data []).map String.mk

/-- `clean_latex` from `src/main.py`: empty input maps to the empty string,
otherwise the external converter runs and remaining double dashes collapse
to a single dash.  `norm` stands for `latex_converter.latex_to_text`. -/
def clean_latex (norm : String → String) (text : String) : String :=
  if text = "" then "" else pyReplace (norm text) ("--") ("-")

/-- The author list derived inside `format_authors`: clean, split on
`" and "`, strip each name, drop empty names. -/
def parseAuthors (norm : String → String) (raw : String) : List String :=
  ((pySplit (clean_latex norm raw) (" and ")).map pyStrip).filter (fun a => a ≠ "")

/-- `format_authors` from `src/main.py`. -/
def format_authors (norm : String → String) (authors_str : String) (max_authors : Int) : String :=
  if authors_str = "" then ("Unknown Author")
  else if parseAuthors norm authors_str = [] then ("Unknown Author")
  else if ((parseAuthors norm authors_str).length : Int) ≤ max_authors then
    joinWith (", ") (parseAuthors norm authors_str)
  else
    joinWith (", ") (pySliceTo (parseAuthors norm authors_str) (max_authors - 1)) ++ (", et al.")

/-- Fields scanned by `extract_arxiv_info`, in source order. -/
def arxivFields : List String :=
  [("journal"), ("note"), ("publisher"), ("howpublished"), ("url"), ("doi")]

/-- The flag test of `extract_arxiv_info`:
`'arxiv' in field_text or 'preprint' in field_text`. -/
def triggersArxiv (txt : String) : Bool :=
  containsSub txt ("arxiv") || containsSub txt ("preprint")

/-- The regex tail `(\d+\.\d+)` applied greedily at a fixed position. -/
def matchIdAfter (cs : List Char) : Option String :=
  let d1 := cs.takeWhile Char.isDigit
  let rest := cs.dropWhile Char.isDigit
  if d1 = [] then none
  else
    match rest with
    | '.' :: rest2 =>
      let d2 := rest2.takeWhile Char.isDigit
      if d2 = [] then none else some (String.mk (d1 ++ '.' :: d2))
    | _ => none

/-- `re.search` for the pattern `<pre>(\d+\.\d+)`: earliest start position
wins; on a failed tail the scan resumes one character later. -/
def searchIdPat (pre : List Char) : List Char → Option String
  | [] => none
  | c :: rest =>
    if pre.isPrefixOf (c :: rest) then
      match matchIdAfter ((c :: rest).drop pre.length) with
      | some r => some r
      | none => searchIdPat pre rest
    else searchIdPat pre rest

/-- The three identifier patterns of `extract_arxiv_info`, tried in order
over the whole field text. -/
def extractIdFrom (txt : String) : Option String :=
  match searchIdPat ("arxiv:").data txt.data with
  | some r => some r
  | none =>
    match searchIdPat ("arxiv/").data txt.data with
    | some r => some r
    | none => searchIdPat ("abs/").data txt.data

/-- One iteration of the field loop of `extract_arxiv_info`, acting on the
state `(is_preprint, arxiv_id)`. -/
def arxivStep (norm : String → String) (e : Entry) (st : Bool × Option String)
    (f : String) : Bool × Option String :=
  match lookupField e f with
  | none => st
  | some v =>
    if v = "" then st
    else if triggersArxiv (pyLower (clean_latex norm v)) then
      (true, match extractIdFrom (pyLower (clean_latex norm v)) with
             | some i => some i
             | none => st.2)
    else st

/-- `extract_arxiv_info` from `src/main.py`. -/
def extract_arxiv_info (norm : String → String) (e : Entry) : Bool × Option String :=
  arxivFields.foldl (arxivStep norm e) (false, none)

/-- `format_version_info` from `src/main.py`. -/
def format_version_info (e : Entry) : String :=
  match lookupField e ("version") with
  | some v => ("v") ++ v
  | none => ""

/-- Fallback fields for an organizational author, in source order. -/
def orgFields : List String := [("organization"), ("institution"), ("publisher")]

/-- The "first present field wins" loop: `for field in fields: if field in
entry: org = entry[field]; break`.  Key presence only; the value may be
empty. -/
def firstKeyPresent (e : Entry) : List String → Option String
  | [] => none
  | f :: fs =>
    match lookupField e f with
    | some v => some v
    | none => firstKeyPresent e fs

/-- The author clause of `bibtex_to_plain` (lines 104-122 of
`src/main.py`): author, else editor, else first organizational field
(tested for Python truthiness), else the placeholder. -/
def authorClause (norm : String → String) (maxA : Int) (e : Entry) : String :=
  match lookupField e ("author") with
  | some a => format_authors norm a maxA ++ (". ")
  | none =>
    match lookupField e ("editor") with
    | some ed => format_authors norm ed maxA ++ (" (Eds.). ")
    | none =>
      match firstKeyPresent e orgFields with
      | some org => if org = "" then ("Unknown Author. ") else clean_latex norm org ++ (". ")
      | none => ("Unknown Author. ")

/-- The year clause (lines 125-128): the raw year value, no normalization. -/
def yearClause (e : Entry) : String :=
  match lookupField e ("year") with
  | some y => ("(") ++ y ++ (") ")
  | none => ("(Unknown Year) ")

/-- The title clause (lines 131-134). -/
def titleClause (norm : String → String) (e : Entry) : String :=
  match lookupField e ("title") with
  | some t => clean_latex norm t ++ (". ")
  | none => ("Untitled. ")

/-- The `article` body (lines 140-149): only the journal name passes
through `clean_latex`; volume, number and pages are inserted verbatim. -/
def articleBody (norm : String → String) (e : Entry) : String :=
  match lookupField e ("journal") with
  | none => ""
  | some j =>
    clean_latex norm j
      ++ (match lookupField e ("volume") with
          | some v => (", ") ++ v
          | none => "")
      ++ (match lookupField e ("number") with
          | some n => ("(") ++ n ++ (")")
          | none => "")
      ++ (match lookupField e ("pages") with
          | some p => (", ") ++ p
          | none => "")
      ++ (". ")

/-- The type-specific body clause (lines 140-216), dispatching on the
already-lowercased entry type. -/
def bodyClause (norm : String → String) (e : Entry) (et : String) : String :=
  if et = ("article") then articleBody norm e
  else if et = ("inproceedings") ∨ et = ("conference") ∨ et = ("proceedings") then
    match lookupField e ("booktitle") with
    | some b => ("In: ") ++ clean_latex norm b ++ (". ")
    | none => ("In: Unknown Proceedings. ")
  else if et = ("techreport") then
    match lookupField e ("institution") with
    | some i => ("Technical Report, ") ++ clean_latex norm i ++ (". ")
    | none => ("Technical Report. ")
  else if et = ("unpublished") then
    match lookupField e ("note") with
    | some n => clean_latex norm n ++ (". ")
    | none => ("Unpublished. ")
  else if et = ("book") ∨ et = ("incollection") then
    (match lookupField e ("publisher") with
     | some p => clean_latex norm p ++ (". ")
     | none => "")
      ++ (match lookupField e ("address") with
          | some a => clean_latex norm a ++ (". ")
          | none => "")
  else if et = ("software") then
    (if format_version_info e = "" then ("[Software]. ")
     else ("[Software] ") ++ format_version_info e ++ (". "))
      ++ (if hasField e ("url") || hasField e ("doi") then
            match lookupField e ("url") with
            | some u => ("Available at: ") ++ clean_latex norm u ++ (". ")
            | none =>
              match lookupField e ("doi") with
              | some d => ("DOI: ") ++ clean_latex norm d ++ (". ")
              | none => ""
          else "")
      ++ (match lookupField e ("note") with
          | some n => clean_latex norm n ++ (". ")
          | none => "")
  else if et = ("dataset") then
    ("[Dataset]. ")
      ++ (match lookupField e ("publisher") with
          | some p => clean_latex norm p ++ (". ")
          | none => "")
  else if et = ("online") then
    ("[Online]. ")
      ++ (match lookupField e ("url") with
          | some u => ("Available at: ") ++ clean_latex norm u ++ (". ")
          | none => "")
      ++ (match lookupField e ("note") with
          | some n => clean_latex norm n ++ (". ")
          | none => "")
  else
    ("[") ++ pyCapitalize et ++ ("]. ")
      ++ (match firstKeyPresent e
            [("publisher"), ("institution"), ("organization"), ("howpublished"), ("note")] with
          | some v => clean_latex norm v ++ (". ")
          | none => "")

/-- The preprint clause (lines 219-224). -/
def preprintClause (norm : String → String) (e : Entry) : String :=
  let r := extract_arxiv_info norm e
  if r.1 then
    ("[Preprint] ")
      ++ (match r.2 with
          | some i => ("arXiv:") ++ i ++ (" ")
          | none => "")
  else ""

/-- The text assembled before the optional URL clause: author, year,
title, body and preprint clauses (`entry_text` at line 227). -/
def preUrlText (norm : String → String) (maxA : Int) (e : Entry) (et : String) : String :=
  authorClause norm maxA e ++ yearClause e ++ titleClause norm e
    ++ bodyClause norm e et ++ preprintClause norm e

/-- The optional URL clause (lines 227-231): guarded by the substring test
`'url' not in entry_text` on the text assembled so far. -/
def urlClause (norm : String → String) (incUrl : Bool) (textSoFar : String) (e : Entry) : String :=
  if incUrl && !containsSub textSoFar ("url") then
    match lookupField e ("url") with
    | some u => ("URL: ") ++ clean_latex norm u ++ (" ")
    | none =>
      match lookupField e ("doi") with
      | some d => ("DOI: ") ++ clean_latex norm d ++ (" ")
      | none => ""
  else ""

/-- The optional abstract clause (lines 234-235). -/
def abstractClause (norm : String → String) (incAbs : Bool) (e : Entry) : String :=
  if incAbs then
    match lookupField e ("abstract") with
    | some a => ("Abstract: ") ++ clean_latex norm a
    | none => ""
  else ""

/-- One record's rendered text (`entry_text.strip()` at line 237), given
the raw `ENTRYTYPE` value `t`. -/
def renderEntryText (norm : String → String) (maxA : Int) (incAbs incUrl : Bool)
    (e : Entry) (t : String) : String :=
  pyStrip (preUrlText norm maxA e (pyLower t)
    ++ urlClause norm incUrl (preUrlText norm maxA e (pyLower t)) e
    ++ abstractClause norm incAbs e)

/-- One record's rendering, with the `entry['ENTRYTYPE']` access modelled
as fallible: a record without the tag raises `KeyError` (line 137). -/
def renderEntry (norm : String → String) (maxA : Int) (incAbs incUrl : Bool)
    (e : Entry) : Except String String :=
  match lookupField e ("ENTRYTYPE") with
  | none => Except.error ("KeyError: ENTRYTYPE")
  | some t => Except.ok (renderEntryText norm maxA incAbs incUrl e t)

/-- The record loop of `bibtex_to_plain`: renders each entry in input
order; a raised exception aborts the whole run. -/
def renderList (norm : String → String) (maxA : Int) (incAbs incUrl : Bool) :
    List Entry → Except String (List String)
  | [] => Except.ok []
  | e :: es =>
    match renderEntry norm maxA incAbs incUrl e with
    | Except.error m => Except.error m
    | Except.ok s =>
      match renderList norm maxA incAbs incUrl es with
      | Except.error m => Except.error m
      | Except.ok rest => Except.ok (s :: rest)

/-- `bibtex_to_plain` from `src/main.py`, starting from the parsed entry
list (file reading and `bibtexparser.load` are the external collaborator):
paragraphs joined by a blank line. -/
def bibtex_to_plain (norm : String → String) (maxA : Int) (incAbs incUrl : Bool)
    (entries : List Entry) : Except String String :=
  match renderList norm maxA incAbs incUrl entries with
  | Except.error m => Except.error m
  | Except.ok ps => Except.ok (joinWith ("\n\n") ps)

/-- The `__main__` driver: `args.sorting` is parsed by `argparse` but never
consulted; `bibtex_to_plain` is called on the unmodified entry list. -/
def mainResult (norm : String → String) (maxA : Int) (incAbs incUrl : Bool)
    (sorting : String) (entries : List Entry) : Except String String :=
  bibtex_to_plain norm maxA incAbs incUrl entries

/-! Derived notions used to state the claims. -/

/-- Whether one field of the record trips the preprint flag: present,
non-empty, and its normalized lowercased text contains `arxiv` or
`preprint`. -/
def fieldTrig (norm : String → String) (e : Entry) (f : String) : Bool :=
  match lookupField e f with
  | none => false
  | some v =>
    if v = "" then false else triggersArxiv (pyLower (clean_latex norm v))

/-- The identifier one field of the record contributes: `none` unless the
field is present, non-empty, trips the flag and one of the three patterns
matches. -/
def arxivFieldId (norm : String → String) (e : Entry) (f : String) : Option String :=
  match lookupField e f with
  | none => none
  | some v =>
    if v = "" then none
    else if triggersArxiv (pyLower (clean_latex norm v)) then
      extractIdFrom (pyLower (clean_latex norm v))
    else none

/-- Left-biased choice on optional strings. -/
def orO (a b : Option String) : Option String :=
  match a with
  | some x => some x
  | none => b

/-- Last element of a list of strings, if any. -/
def lastO : List String → Option String
  | [] => none
  | [x] => some x
  | _ :: y :: rest => lastO (y :: rest)

/-- Stated from the claim's words, for comparison with `articleBody`: the
article body with every component (journal, volume, number, pages) passed
through the Markup Normalizer. -/
def articleBodyClaim (norm : String → String) (e : Entry) : String :=
  match lookupField e ("journal") with
  | none => ""
  | some j =>
    clean_latex norm j
      ++ (match lookupField e ("volume") with
          | some v => (", ") ++ clean_latex norm v
          | none => "")
      ++ (match lookupField e ("number") with
          | some n => ("(") ++ clean_latex norm n ++ (")")
          | none => "")
      ++ (match lookupField e ("pages") with
          | some p => (", ") ++ clean_latex norm p
          | none => "")
      ++ (". ")

/-! Helper lemmas. -/

theorem strData_append (a b : String) : (a ++ b).data = a.data ++ b.data := rfl

theorem mem_dropWhile_of_neg {α : Type} {p : α → Bool} {a : α} (hp : p a = false) :
    ∀ (l : List α), a ∈ l → a ∈ l.dropWhile p := by
  intro l
  induction l with
  | nil => intro h; exact absurd h (List.not_mem_nil a)
  | cons x xs ih =>
    intro h
    by_cases hx : p x = true
    · have hxs : a ∈ xs := by
        rcases List.mem_cons.mp h with heq | hmem
        · subst heq; rw [hx] at hp; cases hp
        · exact hmem
      simpa [List.dropWhile_cons, hx] using ih hxs
    · simpa [List.dropWhile_cons, hx] using h

theorem pyStrip_ne_empty {s : String} {c : Char} (hc : c ∈ s.data)
    (hw : c.isWhitespace = false) : pyStrip s ≠ "" := by
  intro h
  have hdata :
      (((s.data.dropWhile Char.isWhitespace).reverse.dropWhile Char.isWhitespace).reverse)
        = [] := congrArg String.data h
  have h1 : c ∈ s.data.dropWhile Char.isWhitespace := mem_dropWhile_of_neg hw _ hc
  have h2 : c ∈ (s.data.dropWhile Char.isWhitespace).reverse := List.mem_reverse.mpr h1
  have h3 : c ∈ (s.data.dropWhile Char.isWhitespace).reverse.dropWhile Char.isWhitespace :=
    mem_dropWhile_of_neg hw _ h2
  have h4 : c ∈ ((s.data.dropWhile Char.isWhitespace).reverse.dropWhile Char.isWhitespace).reverse :=
    List.mem_reverse.mpr h3
  rw [hdata] at h4
  exact absurd h4 (List.not_mem_nil c)

theorem paren_mem_yearClause (e : Entry) : ('(') ∈ (yearClause e).data := by
  unfold yearClause
  cases lookupField e ("year") with
  | some y =>
    rw [strData_append, strData_append]
    exact List.mem_append.mpr (Or.inl (List.mem_append.mpr (Or.inl (by decide))))
  | none => decide

theorem paren_mem_preUrlText (norm : String → String) (maxA : Int) (e : Entry) (et : String) :
    ('(') ∈ (preUrlText norm maxA e et).data := by
  unfold preUrlText
  rw [strData_append, strData_append, strData_append, strData_append]
  have hy := paren_mem_yearClause e
  refine List.mem_append.mpr (Or.inl ?_)
  refine List.mem_append.mpr (Or.inl ?_)
  refine List.mem_append.mpr (Or.inl ?_)
  exact List.mem_append.mpr (Or.inr hy)

theorem renderEntryText_ne_empty (norm : String → String) (maxA : Int)
    (incAbs incUrl : Bool) (e : Entry) (t : String) :
    renderEntryText norm maxA incAbs incUrl e t ≠ "" := by
  unfold renderEntryText
  refine pyStrip_ne_empty (c := ('(')) ?_ (by decide)
  rw [strData_append, strData_append]
  exact List.mem_append.mpr
    (Or.inl (List.mem_append.mpr (Or.inl (paren_mem_preUrlText norm maxA e (pyLower t)))))

theorem parseAuthors_empty (norm : String → String) : parseAuthors norm ("") = [] := rfl

theorem arxivStep_fst (norm : String → String) (e : Entry) (st : Bool × Option String)
    (f : String) : (arxivStep norm e st f).1 = (st.1 || fieldTrig norm e f) := by
  unfold arxivStep fieldTrig
  cases lookupField e f with
  | none => simp
  | some v =>
    by_cases hv : v = ""
    · simp [hv]
    · by_cases ht : triggersArxiv (pyLower (clean_latex norm v)) = true
      · simp [hv, ht]
      · simp [hv, Bool.eq_false_iff.mpr fun h => ht h]

theorem foldl_arxiv_fst (norm : String → String) (e : Entry) :
    ∀ (fields : List String) (st : Bool × Option String),
      (fields.foldl (arxivStep norm e) st).1 = (st.1 || fields.any (fieldTrig norm e)) := by
  intro fields
  induction fields with
  | nil => intro st; simp
  | cons f fs ih =>
    intro st
    rw [List.foldl_cons, ih, List.any_cons, arxivStep_fst, Bool.or_assoc]

theorem arxivStep_snd (norm : String → String) (e : Entry) (st : Bool × Option String)
    (f : String) : (arxivStep norm e st f).2 = orO (arxivFieldId norm e f) st.2 := by
  unfold arxivStep arxivFieldId orO
  cases lookupField e f with
  | none => simp
  | some v =>
    by_cases hv : v = ""
    · simp [hv]
    · by_cases ht : triggersArxiv (pyLower (clean_latex norm v)) = true
      · simp only [hv, if_neg, ht, if_pos, if_true]
        cases extractIdFrom (pyLower (clean_latex norm v)) with
        | none => simp
        | some i => simp
      · simp [hv, Bool.eq_false_iff.mpr fun h => ht h]

theorem lastO_pair (y : String) (r : List String) : ∃ z, lastO (y :: r) = some z := by
  induction r generalizing y with
  | nil => exact ⟨y, rfl⟩
  | cons a b ih =>
    obtain ⟨z, hz⟩ := ih a
    exact ⟨z, hz⟩

theorem orO_lastO_cons (x : String) (l : List String) (b : Option String) :
    orO (lastO (x :: l)) b = orO (lastO l) (some x) := by
  cases l with
  | nil => rfl
  | cons y r =>
    obtain ⟨z, hz⟩ := lastO_pair y r
    show orO (lastO (y :: r)) b = orO (lastO (y :: r)) (some x)
    rw [hz]
    rfl

theorem foldl_arxiv_snd (norm : String → String) (e : Entry) :
    ∀ (fields : List String) (st : Bool × Option String),
      (fields.foldl (arxivStep norm e) st).2
        = orO (lastO (fields.filterMap (arxivFieldId norm e))) st.2 := by
  intro fields
  induction fields with
  | nil => intro st; rfl
  | cons f fs ih =>
    intro st
    rw [List.foldl_cons, ih, arxivStep_snd, List.filterMap_cons]
    cases hg : arxivFieldId norm e f with
    | none => simp [orO]
    | some i =>
      rw [orO_lastO_cons]
      simp [orO]

theorem renderList_error_of_mem (norm : String → String) (maxA : Int)
    (incAbs incUrl : Bool) {e : Entry} {m : String}
    (hm : renderEntry norm maxA incAbs incUrl e = Except.error m) :
    ∀ {es : List Entry}, e ∈ es →
      ∃ m2, renderList norm maxA incAbs incUrl es = Except.error m2 := by
  intro es
  induction es with
  | nil => intro he; cases he
  | cons x xs ih =>
    intro he
    rcases List.mem_cons.mp he with rfl | hmem
    · exact ⟨m, by unfold renderList; rw [hm]⟩
    · cases hx : renderEntry norm maxA incAbs incUrl x with
      | error m3 => exact ⟨m3, by unfold renderList; rw [hx]⟩
      | ok s =>
        obtain ⟨m2, hm2⟩ := ih hmem
        exact ⟨m2, by unfold renderList; rw [hx, hm2]⟩

/-! Claim theorems. -/

/-- C1: the spec (and the CLI's own help text) says `--sorting year` /
`--sorting author` reorder the records before rendering, but `args.sorting`
is never consulted: `mainResult` coincides with `bibtex_to_plain` for every
sorting argument, and on a two-record input whose years are out of order,
running with sorting `year` leaves the records in input order (the 2020
record is printed before the 1999 record). -/
theorem sorting_flag_ignored_bug :
    (∀ (norm : String → String) (maxA : Int) (incAbs incUrl : Bool)
       (sorting : String) (entries : List Entry),
      mainResult norm maxA incAbs incUrl sorting entries
        = bibtex_to_plain norm maxA incAbs incUrl entries)
    ∧ mainResult (fun s => s) 3 false false ("year")
        [[(("ENTRYTYPE"), ("misc")), (("author"), ("Alice Smith")),
          (("year"), ("2020")), (("title"), ("Newer"))],
         [(("ENTRYTYPE"), ("misc")), (("author"), ("Bob Jones")),
          (("year"), ("1999")), (("title"), ("Older"))]]
      = Except.ok ("Alice Smith. (2020) Newer. [Misc].\n\nBob Jones. (1999) Older. [Misc].")
    ∧ ("Alice Smith. (2020) Newer. [Misc].\n\nBob Jones. (1999) Older. [Misc].")
      ≠ ("Bob Jones. (1999) Older. [Misc].\n\nAlice Smith. (2020) Newer. [Misc].") := by
  exact ⟨fun _ _ _ _ _ _ => rfl, congrArg Except.ok (by decide), by decide⟩

/-- C3: for an author list that exceeds `max_authors` (with
`max_authors ≥ 2`), `format_authors` joins the first `max_authors - 1`
names with `", "` and appends `", et al."`; a non-empty list of length at
most `max_authors` is joined with `", "` and gets no suffix; and
`"A and B and C and D"` with `max_authors = 3` yields `"A, B, et al."`. -/
theorem format_authors_truncation :
    (∀ (norm : String → String) (raw : String) (maxA : Int), 2 ≤ maxA →
      ((maxA < ((parseAuthors norm raw).length : Int) →
         format_authors norm raw maxA
           = joinWith (", ") ((parseAuthors norm raw).take (maxA - 1).toNat) ++ (", et al."))
       ∧ (parseAuthors norm raw ≠ [] → ((parseAuthors norm raw).length : Int) ≤ maxA →
           format_authors norm raw maxA = joinWith (", ") (parseAuthors norm raw))))
    ∧ format_authors (fun s => s) ("A and B and C and D") 3 = ("A, B, et al.") := by
  refine ⟨?_, by decide⟩
  intro norm raw maxA h2
  constructor
  · intro hlen
    have hraw : raw ≠ ("") := by
      intro hr
      rw [hr, parseAuthors_empty] at hlen
      simp at hlen
      omega
    have hne : parseAuthors norm raw ≠ [] := by
      intro h0
      rw [h0] at hlen
      simp at hlen
      omega
    unfold format_authors
    rw [if_neg hraw, if_neg hne, if_neg (by omega)]
    unfold pySliceTo
    rw [if_pos (by omega : (0:Int) ≤ maxA - 1)]
  · intro hne hle
    have hraw : raw ≠ ("") := by
      intro hr
      rw [hr, parseAuthors_empty] at hne
      exact hne rfl
    unfold format_authors
    rw [if_neg hraw, if_neg hne, if_pos hle]

/-- C3 witness at `norm = id`, `raw = "A and B and C and D"`,
`max_authors = 3`. -/
theorem format_authors_truncation_witness :
    format_authors (fun s => s) ("A and B and C and D") 3
      = joinWith (", ")
          ((parseAuthors (fun s => s) ("A and B and C and D")).take ((3:Int) - 1).toNat)
        ++ (", et al.") :=
  (format_authors_truncation.1 (fun s => s) ("A and B and C and D") 3 (by decide)).1
    (by decide)

/-- C4 counterexample: with `max_authors = 0` and the two-name list from
`"A and B"`, the Python slice `authors[:-1]` keeps the FIRST name, so the
output is `"A, et al."`, not the zero-shown-names `", et al."` the claim
asserts. -/
theorem format_authors_negative_slice_counterexample :
    format_authors (fun s => s) ("A and B") 0 = ("A, et al.")
    ∧ format_authors (fun s => s) ("A and B") 0 ≠ (", et al.") := by
  exact ⟨by decide, by decide⟩

/-- C4 amended: when the list exceeds `max_authors`, `max_authors = 1`
shows zero names plus the suffix, but `max_authors ≤ 0` makes
`authors[:max_authors - 1]` a negative-index slice keeping all but the
last `1 - max_authors` names (clamped below at zero names), followed by
the suffix; no crash in either case. -/
theorem format_authors_low_max_amended :
    (∀ (norm : String → String) (raw : String) (maxA : Int),
      parseAuthors norm raw ≠ [] → maxA < ((parseAuthors norm raw).length : Int) →
        ((maxA = 1 → format_authors norm raw maxA = (", et al."))
         ∧ (maxA ≤ 0 → format_authors norm raw maxA
             = joinWith (", ")
                 ((parseAuthors norm raw).take
                   ((((parseAuthors norm raw).length : Int) + maxA - 1).toNat))
               ++ (", et al."))))
    ∧ format_authors (fun s => s) ("A and B") 0 = ("A, et al.") := by
  refine ⟨?_, by decide⟩
  intro norm raw maxA hne hlt
  have hraw : raw ≠ ("") := by
    intro hr
    rw [hr, parseAuthors_empty] at hne
    exact hne rfl
  constructor
  · intro h1
    unfold format_authors
    rw [if_neg hraw, if_neg hne, if_neg (by omega)]
    unfold pySliceTo
    rw [h1]
    norm_num
    rfl
  · intro h0
    unfold format_authors
    rw [if_neg hraw, if_neg hne, if_neg (by omega)]
    unfold pySliceTo
    rw [if_neg (by omega : ¬ (0:Int) ≤ maxA - 1)]
    have harith : (((parseAuthors norm raw).length : Int) + (maxA - 1))
        = (((parseAuthors norm raw).length : Int) + maxA - 1) := by omega
    rw [harith]

/-- C4 amended witness: `max_authors = 1` on a three-name list and
`max_authors = 0` on a two-name list. -/
theorem format_authors_low_max_amended_witness :
    format_authors (fun s => s) ("A and B and C") 1 = (", et al.")
    ∧ format_authors (fun s => s) ("A and B") 0
        = joinWith (", ")
            ((parseAuthors (fun s => s) ("A and B")).take
              ((((parseAuthors (fun s => s) ("A and B")).length : Int) + 0 - 1).toNat))
          ++ (", et al.") :=
  ⟨(format_authors_low_max_amended.1 (fun s => s) ("A and B and C") 1
      (by decide) (by decide)).1 rfl,
   (format_authors_low_max_amended.1 (fun s => s) ("A and B") 0
      (by decide) (by decide)).2 (by decide)⟩

theorem triggersArxiv_iff (txt : String) :
    triggersArxiv txt = true ↔
      (containsSub txt ("arxiv") = true ∨ containsSub txt ("preprint") = true) := by
  unfold triggersArxiv
  simp

theorem fieldTrig_eq_true_iff (norm : String → String) (e : Entry) (f : String) :
    fieldTrig norm e f = true ↔
      ∃ v, lookupField e f = some v ∧ v ≠ ("") ∧
        triggersArxiv (pyLower (clean_latex norm v)) = true := by
  unfold fieldTrig
  cases h : lookupField e f with
  | none => simp
  | some v =>
    by_cases hv : v = ("")
    · simp [hv]
    · simp [hv]

/-- C5: `extract_arxiv_info` flags a record as a preprint iff one of the
six scanned fields is present, non-empty, and its normalized lowercased
text contains `"arxiv"` or `"preprint"`; and a `journal` field holding
`"arXiv:2301.01234"` yields the flag and the identifier `"2301.01234"`. -/
theorem extract_arxiv_flag_iff :
    (∀ (norm : String → String) (e : Entry),
      ((extract_arxiv_info norm e).1 = true ↔
        ∃ f ∈ arxivFields, ∃ v, lookupField e f = some v ∧ v ≠ ("") ∧
          (containsSub (pyLower (clean_latex norm v)) ("arxiv") = true ∨
           containsSub (pyLower (clean_latex norm v)) ("preprint") = true)))
    ∧ extract_arxiv_info (fun s => s) [(("journal"), ("arXiv:2301.01234"))]
        = (true, some ("2301.01234")) := by
  refine ⟨?_, by decide⟩
  intro norm e
  unfold extract_arxiv_info
  rw [foldl_arxiv_fst]
  simp only [Bool.false_or]
  rw [List.any_eq_true]
  constructor
  · rintro ⟨f, hf, htrig⟩
    obtain ⟨v, hv, hve, ht⟩ := (fieldTrig_eq_true_iff norm e f).mp htrig
    exact ⟨f, hf, v, hv, hve, (triggersArxiv_iff _).mp ht⟩
  · rintro ⟨f, hf, v, hv, hve, hor⟩
    exact ⟨f, hf,
      (fieldTrig_eq_true_iff norm e f).mpr ⟨v, hv, hve, (triggersArxiv_iff _).mpr hor⟩⟩

/-- C9: the identifier returned by `extract_arxiv_info` is the one
contributed by the LAST field (in the scan order journal, note, publisher,
howpublished, url, doi) that both trips the flag and pattern-matches: each
later match overwrites the earlier one, and a flag-tripping field with no
pattern match leaves the previous identifier unchanged.  Concretely, with
`journal = "arxiv:1.2"` and `note = "arxiv:3.4"` the result is `"3.4"`,
while with `journal = "arxiv:1.2"` and `note = "preprint"` it stays
`"1.2"`. -/
theorem arxiv_id_last_field_wins :
    (∀ (norm : String → String) (e : Entry),
      (extract_arxiv_info norm e).2
        = lastO (arxivFields.filterMap (arxivFieldId norm e)))
    ∧ extract_arxiv_info (fun s => s)
        [(("journal"), ("arxiv:1.2")), (("note"), ("arxiv:3.4"))]
        = (true, some ("3.4"))
    ∧ extract_arxiv_info (fun s => s)
        [(("journal"), ("arxiv:1.2")), (("note"), ("preprint"))]
        = (true, some ("1.2")) := by
  refine ⟨?_, by decide, by decide⟩
  intro norm e
  unfold extract_arxiv_info
  rw [foldl_arxiv_snd]
  cases lastO (arxivFields.filterMap (arxivFieldId norm e)) with
  | none => rfl
  | some z => rfl

/-- C6: a record with no `ENTRYTYPE` tag makes the rendering of that
record fail with the `KeyError`, and the whole batch run aborts with an
error whenever such a record is among the entries; no record is skipped
and no default type is assumed. -/
theorem missing_entrytype_fails (norm : String → String) (maxA : Int)
    (incAbs incUrl : Bool) (e : Entry)
    (h : lookupField e ("ENTRYTYPE") = none) :
    renderEntry norm maxA incAbs incUrl e = Except.error ("KeyError: ENTRYTYPE")
    ∧ ∀ es : List Entry, e ∈ es →
        ∃ m, bibtex_to_plain norm maxA incAbs incUrl es = Except.error m := by
  have h1 : renderEntry norm maxA incAbs incUrl e
      = Except.error ("KeyError: ENTRYTYPE") := by
    unfold renderEntry
    rw [h]
  refine ⟨h1, ?_⟩
  intro es he
  obtain ⟨m, hm⟩ := renderList_error_of_mem norm maxA incAbs incUrl h1 he
  exact ⟨m, by unfold bibtex_to_plain; rw [hm]⟩

/-- C6 witness: a record holding only a `title` field. -/
theorem missing_entrytype_fails_witness :
    renderEntry (fun s => s) 3 false false [(("title"), ("X"))]
      = Except.error ("KeyError: ENTRYTYPE")
    ∧ ∃ m, bibtex_to_plain (fun s => s) 3 false false [[(("title"), ("X"))]]
        = Except.error m := by
  have h := missing_entrytype_fails (fun s => s) 3 false false [(("title"), ("X"))] rfl
  exact ⟨h.1, h.2 [[(("title"), ("X"))]] (List.mem_singleton.mpr rfl)⟩

/-- C7: when every record carries its `ENTRYTYPE` tag, the batch succeeds,
producing exactly one non-empty paragraph per record, in input order
(captured by the pointwise correspondence between the entry list and the
paragraph list), joined with exactly one blank line; and a record with all
optional fields absent renders with the documented placeholders. -/
theorem batch_render_paragraphs :
    (∀ (norm : String → String) (maxA : Int) (incAbs incUrl : Bool)
       (entries : List Entry),
      (∀ e ∈ entries, (lookupField e ("ENTRYTYPE")).isSome = true) →
        ∃ ps, renderList norm maxA incAbs incUrl entries = Except.ok ps
          ∧ List.Forall₂
              (fun e p => renderEntry norm maxA incAbs incUrl e = Except.ok p ∧ p ≠ (""))
              entries ps
          ∧ bibtex_to_plain norm maxA incAbs incUrl entries
              = Except.ok (joinWith ("\n\n") ps))
    ∧ renderEntryText (fun s => s) 3 false false [(("ENTRYTYPE"), ("misc"))] ("misc")
        = ("Unknown Author. (Unknown Year) Untitled. [Misc].") := by
  refine ⟨?_, by decide⟩
  intro norm maxA incAbs incUrl entries
  induction entries with
  | nil =>
    intro _
    exact ⟨[], rfl, List.Forall₂.nil, rfl⟩
  | cons e es ih =>
    intro h
    obtain ⟨t, ht⟩ := Option.isSome_iff_exists.mp (h e (List.mem_cons_self e es))
    obtain ⟨ps, hps, hall, _⟩ := ih (fun x hx => h x (List.mem_cons_of_mem e hx))
    have hre : renderEntry norm maxA incAbs incUrl e
        = Except.ok (renderEntryText norm maxA incAbs incUrl e t) := by
      unfold renderEntry
      rw [ht]
    have hlist : renderList norm maxA incAbs incUrl (e :: es)
        = Except.ok (renderEntryText norm maxA incAbs incUrl e t :: ps) := by
      unfold renderList
      rw [hre, hps]
    refine ⟨renderEntryText norm maxA incAbs incUrl e t :: ps, hlist, ?_, ?_⟩
    · exact List.Forall₂.cons
        ⟨hre, renderEntryText_ne_empty norm maxA incAbs incUrl e t⟩ hall
    · unfold bibtex_to_plain
      rw [hlist]

/-- C7 witness: a two-record batch (an article and a misc record). -/
theorem batch_render_paragraphs_witness :
    (∀ e ∈ ([[(("ENTRYTYPE"), ("article")), (("journal"), ("J"))],
             [(("ENTRYTYPE"), ("misc"))]] : List Entry),
      (lookupField e ("ENTRYTYPE")).isSome = true)
    ∧ ∃ ps, renderList (fun s => s) 3 false false
          [[(("ENTRYTYPE"), ("article")), (("journal"), ("J"))],
           [(("ENTRYTYPE"), ("misc"))]] = Except.ok ps
        ∧ List.Forall₂
            (fun e p => renderEntry (fun s => s) 3 false false e = Except.ok p ∧ p ≠ (""))
            [[(("ENTRYTYPE"), ("article")), (("journal"), ("J"))],
             [(("ENTRYTYPE"), ("misc"))]] ps
        ∧ bibtex_to_plain (fun s => s) 3 false false
            [[(("ENTRYTYPE"), ("article")), (("journal"), ("J"))],
             [(("ENTRYTYPE"), ("misc"))]]
            = Except.ok (joinWith ("\n\n") ps) :=
  ⟨by decide,
   batch_render_paragraphs.1 (fun s => s) 3 false false
     [[(("ENTRYTYPE"), ("article")), (("journal"), ("J"))],
      [(("ENTRYTYPE"), ("misc"))]] (by decide)⟩

/-- C2 counterexample: a misc record whose title mentions `"urls"` and
whose body embedded no URL/DOI; with `include_url` requested the claim
demands a `"URL: http://x.com "` clause, but the substring test
`'url' not in entry_text` fires on the title text and the clause is
silently dropped. -/
theorem url_clause_substring_counterexample :
    renderEntryText (fun s => s) 3 false true
        [(("ENTRYTYPE"), ("misc")), (("title"), ("About urls")), (("url"), ("http://x.com"))]
        ("misc")
      = ("Unknown Author. (Unknown Year) About urls. [Misc].")
    ∧ containsSub ("Unknown Author. (Unknown Year) About urls. [Misc].") ("URL:") = false := by
  exact ⟨by decide, by decide⟩

/-- C2 amended: the URL clause is appended iff `include_url` is set AND
the substring `"url"` does not occur in the text assembled so far (author
through preprint clauses); whether the type-specific body actually
embedded a URL/DOI is never consulted.  When the clause is appended, it is
`"URL: <url> "` if the `url` field is present, else `"DOI: <doi> "` if
`doi` is present. -/
theorem url_clause_amended :
    (∀ (norm : String → String) (maxA : Int) (incAbs incUrl : Bool) (e : Entry) (t : String),
      renderEntryText norm maxA incAbs incUrl e t
        = pyStrip (preUrlText norm maxA e (pyLower t)
            ++ urlClause norm incUrl (preUrlText norm maxA e (pyLower t)) e
            ++ abstractClause norm incAbs e))
    ∧ (∀ (norm : String → String) (incUrl : Bool) (txt : String) (e : Entry),
        containsSub txt ("url") = true → urlClause norm incUrl txt e = (""))
    ∧ (∀ (norm : String → String) (txt : String) (e : Entry),
        containsSub txt ("url") = false →
          urlClause norm true txt e
            = (match lookupField e ("url") with
               | some u => ("URL: ") ++ clean_latex norm u ++ (" ")
               | none =>
                 match lookupField e ("doi") with
                 | some d => ("DOI: ") ++ clean_latex norm d ++ (" ")
                 | none => ("")))
    ∧ (∀ (norm : String → String) (txt : String) (e : Entry),
        urlClause norm false txt e = ("")) := by
  refine ⟨fun _ _ _ _ _ _ => rfl, ?_, ?_, fun _ _ _ => rfl⟩
  · intro norm incUrl txt e h
    unfold urlClause
    rw [h]
    simp
  · intro norm txt e h
    unfold urlClause
    rw [h]
    simp

/-- C2 amended witness: both guard directions at concrete inputs. -/
theorem url_clause_amended_witness :
    urlClause (fun s => s) true ("x url y") [(("url"), ("http://x.com"))] = ("")
    ∧ urlClause (fun s => s) true ("abc") [(("url"), ("http://x.com"))]
        = ("URL: http://x.com ") :=
  ⟨url_clause_amended.2.1 (fun s => s) true ("x url y") [(("url"), ("http://x.com"))]
     (by decide),
   (url_clause_amended.2.2.1 (fun s => s) ("abc") [(("url"), ("http://x.com"))]
      (by decide)).trans (by decide)⟩

/-- C8 counterexample: for an article with `journal = "J"` and
`volume = "1--2"` the code emits the volume verbatim (`"J, 1--2. "`),
while the claim's all-components-normalized body would collapse the
double dash (`"J, 1-2. "`). -/
theorem article_body_counterexample :
    articleBody (fun s => s)
        [(("ENTRYTYPE"), ("article")), (("journal"), ("J")), (("volume"), ("1--2"))]
      = ("J, 1--2. ")
    ∧ articleBodyClaim (fun s => s)
        [(("ENTRYTYPE"), ("article")), (("journal"), ("J")), (("volume"), ("1--2"))]
      = ("J, 1-2. ")
    ∧ ("J, 1--2. ") ≠ ("J, 1-2. ") := by
  exact ⟨by decide, by decide, by decide⟩

/-- C8 amended: for an article, only the journal name passes through the
Markup Normalizer; volume, number and pages are inserted verbatim (volume
as `", <volume>"`, number as `"(<number>)"`, pages as `", <pages>"`),
terminated by `". "`; if `journal` is absent the body clause is empty even
when volume, number or pages are present. -/
theorem article_body_amended :
    (∀ (norm : String → String) (e : Entry),
      (lookupField e ("journal") = none → articleBody norm e = (""))
      ∧ (∀ j, lookupField e ("journal") = some j →
          articleBody norm e
            = clean_latex norm j
              ++ (match lookupField e ("volume") with
                  | some v => (", ") ++ v
                  | none => (""))
              ++ (match lookupField e ("number") with
                  | some n => ("(") ++ n ++ (")")
                  | none => (""))
              ++ (match lookupField e ("pages") with
                  | some p => (", ") ++ p
                  | none => (""))
              ++ (". "))
      ∧ bodyClause norm e ("article") = articleBody norm e)
    ∧ renderEntryText (fun s => s) 3 false false
        [(("ENTRYTYPE"), ("article")), (("journal"), ("J")), (("volume"), ("1--2"))]
        ("article")
      = ("Unknown Author. (Unknown Year) Untitled. J, 1--2.") := by
  refine ⟨?_, by decide⟩
  intro norm e
  refine ⟨?_, ?_, ?_⟩
  · intro h
    unfold articleBody
    rw [h]
  · intro j hj
    unfold articleBody
    rw [hj]
  · unfold bodyClause
    rw [if_pos rfl]

/-- C8 amended witness: the article with the `"1--2"` volume. -/
theorem article_body_amended_witness :
    articleBody (fun s => s) [(("journal"), ("J")), (("volume"), ("1--2"))]
      = ("J, 1--2. ") :=
  ((article_body_amended.1 (fun s => s)
      [(("journal"), ("J")), (("volume"), ("1--2"))]).2.1 ("J") rfl).trans (by decide)

/-- C10: when neither `author` nor `editor` is present, only the first
key present among `organization`, `institution`, `publisher` is consulted,
and an empty value there yields `"Unknown Author. "` even when a later
field of the chain holds a non-empty value. -/
theorem org_fallback_empty_value :
    (∀ (norm : String → String) (maxA : Int) (e : Entry),
      lookupField e ("author") = none → lookupField e ("editor") = none →
        (authorClause norm maxA e
           = (match firstKeyPresent e orgFields with
              | some org =>
                if org = ("") then ("Unknown Author. ")
                else clean_latex norm org ++ (". ")
              | none => ("Unknown Author. "))
         ∧ (firstKeyPresent e orgFields = some ("") →
             authorClause norm maxA e = ("Unknown Author. "))))
    ∧ authorClause (fun s => s) 3 [(("organization"), ("")), (("institution"), ("MIT"))]
        = ("Unknown Author. ") := by
  refine ⟨?_, by decide⟩
  intro norm maxA e ha he
  have hmain : authorClause norm maxA e
      = (match firstKeyPresent e orgFields with
         | some org =>
           if org = ("") then ("Unknown Author. ")
           else clean_latex norm org ++ (". ")
         | none => ("Unknown Author. ")) := by
    unfold authorClause
    rw [ha, he]
  refine ⟨hmain, ?_⟩
  intro hfk
  rw [hmain, hfk]
  simp

/-- C10 witness: an empty `organization` shadowing a non-empty
`institution`. -/
theorem org_fallback_empty_value_witness :
    authorClause (fun s => s) 3 [(("organization"), ("")), (("institution"), ("MIT"))]
      = ("Unknown Author. ") :=
  (org_fallback_empty_value.1 (fun s => s) 3
      [(("organization"), ("")), (("institution"), ("MIT"))] rfl rfl).2 rfl

end Bib2Txt
